import Mathlib

/-!
Verification of the jmx-cron fleet health checker against its specification.

The program is a single-pass sweep: fetch a list of Tomcat instances from an
admin portal, probe the HTTP reachability of each instance, batch-read JMX
attributes through a Jolokia proxy, and post the aggregate back to the portal.

The shallow embedding below translates each function of jmx-cron.go into a
pure Lean function. Network effects are abstracted as explicit outcome
parameters: an HTTP GET becomes an HttpOutcome value, the JSON decode of the
portal body becomes a decode function, and a channel becomes the finite list
of messages that will arrive on it, in arrival order. Blocking forever on a
channel receive is represented by the value none.
-/

set_option autoImplicit false

namespace JmxCron

/-- TomcatInstance, as decoded from the admin portal JSON. -/
structure TomcatInstance where
  ServerID : String
  JvmRoute : String
  ServerIP : String
  HTTPPort : String
  JmxPort : String
  ProjectID : String
  ProjectName : String
deriving DecidableEq

/-- TomcatCheckResult, the value sent back on the response channel and
posted to the admin portal. Fields mirror the Go struct: server id,
success flag, kind tag, payload string. -/
structure TomcatCheckResult where
  ServerID : String
  ServerStatus : Bool
  DataType : String
  ServerResponse : String
deriving DecidableEq

/-- The anonymous target struct inside JolokiaRequest, holding one url field. -/
structure JolokiaTarget where
  url : String
deriving DecidableEq

/-- JolokiaRequest, the JSON body element POSTed to the Jolokia proxy.
The Go field Type is renamed to ReqType because Type is reserved in Lean. -/
structure JolokiaRequest where
  ReqType : String
  Mbean : String
  Attribute : String
  Path : String
  Target : JolokiaTarget
deriving DecidableEq

/-- The echoed request inside one entry of a JolokiaRequestResponse. -/
structure JolokiaResponseRequest where
  Mbean : String
  Path : String
  Target : JolokiaTarget
  Attribute : String
  ReqType : String
deriving DecidableEq

/-- One entry of the decoded Jolokia batch response. -/
structure JolokiaResponseEntry where
  Timestamp : Int
  Status : Int
  Request : JolokiaResponseRequest
  Value : Int
deriving DecidableEq

/-- JolokiaRequestResponse is a slice of response entries in Go. -/
abbrev JolokiaRequestResponse := List JolokiaResponseEntry

/-- Outcome of one HTTP GET, as seen by the caller of the Go http package:
either a transport error carrying a diagnostic message, or a response
carrying a status code. -/
inductive HttpOutcome where
  | transportError : String → HttpOutcome
  | response : Nat → HttpOutcome
deriving DecidableEq

/-- Outcome of the POST to the Jolokia proxy inside getJmxAttributes:
transport error, JSON decode error, or a decoded batch response. -/
inductive JolokiaOutcome where
  | transportError : String → JolokiaOutcome
  | decodeError : String → JolokiaOutcome
  | decoded : JolokiaRequestResponse → JolokiaOutcome
deriving DecidableEq

/-- Result of getInstancesFromPortal: either the process exits fatally
with the given code, or it returns the decoded instance list. -/
inductive DirectoryResult where
  | fatalExit : Nat → DirectoryResult
  | instances : List TomcatInstance → DirectoryResult
deriving DecidableEq

/-- Outcome of one whole sweep of main: fatal exit in the directory
lookup, a permanent block inside waitForDomains, or the aggregate report
handed to updateAdminPortal. -/
inductive SweepOutcome where
  | fatalDirectory : SweepOutcome
  | blocked : SweepOutcome
  | report : List TomcatCheckResult → SweepOutcome
deriving DecidableEq

/-- Go substring test listStartsWith: the second list is a leading
segment of the first. -/
def listStartsWith : List Char → List Char → Bool
  | _, [] => true
  | [], _ :: _ => false
  | a :: as, b :: bs => a == b && listStartsWith as bs

/-- Whether the needle occurs as a contiguous run anywhere in the haystack. -/
def listContainsSub : List Char → List Char → Bool
  | [], needle => listStartsWith [] needle
  | a :: as, needle => listStartsWith (a :: as) needle || listContainsSub as needle

/-- Embedding of Go strings.Contains. -/
def strContains (s sub : String) : Bool :=
  listContainsSub s.toList sub.toList

/-- URL construction in main, jmx-cron.go lines 330 to 333: root address,
plus the suffix portal/xlogin when the project name contains sakai. -/
def buildUrlToTest (t : TomcatInstance) : String :=
  let urlToTest := "http://" ++ t.ServerIP ++ ":" ++ t.HTTPPort ++ "/"
  if strContains t.ProjectName "sakai" then urlToTest ++ "portal/xlogin" else urlToTest

/-- getInstancesFromPortal, jmx-cron.go lines 352 to 388, abstracted over
the HTTP status code, the response body, and the JSON unmarshal step.
The Go code checks StatusCode == http.StatusOK, that is exactly 200; any
other status logs an alert and calls os.Exit(1). On status 200 the body is
unmarshalled only when it is longer than 5 bytes, and the unmarshal error
is ignored, leaving the initial nil slice in place on failure. -/
def getInstancesFromPortal (statusCode : Nat) (body : String)
    (decode : String → Option (List TomcatInstance)) : DirectoryResult :=
  if statusCode = 200 then
    DirectoryResult.instances
      (if body.utf8ByteSize > 5 then (decode body).getD [] else [])
  else
    DirectoryResult.fatalExit 1

/-- A Go http.Client, reduced to the one field the program sets. A Timeout
of zero in Go means no timeout, modelled here as none. -/
structure HttpClient where
  timeoutNanos : Option Nat
deriving DecidableEq

/-- The throwaway client of jmx-cron.go lines 391 to 394, used for the
unmeasured warmup GET: Timeout is time.Duration(1 * time.Second). -/
def warmupClient : HttpClient := { timeoutNanos := some 1000000000 }

/-- The package level http.DefaultClient of the Go standard library, whose
Timeout field is the zero value, meaning no timeout. -/
def defaultHttpClient : HttpClient := { timeoutNanos := none }

/-- The client that issues the measured GET: jmx-cron.go line 397 calls
http.Get, which uses http.DefaultClient, not the 1 second warmup client. -/
def measuredRequestClient : HttpClient := defaultHttpClient

/-- getResponseTime, jmx-cron.go lines 390 to 415, abstracted over the
outcome and elapsed nanoseconds of the measured GET. The function issues
a warmup GET on urlToTest with the 1 second client and then the measured
GET on urlToTest with the default client, recorded by the two let
bindings. The payload is always the elapsed time divided by 1000 and
formatted in base 10, the kind tag is always the string time, and the
success flag is true exactly when the response arrived with status code
200. -/
def getResponseTime (tomcat : TomcatInstance) (urlToTest : String)
    (outcome : HttpOutcome) (elapsedNanos : Nat) : TomcatCheckResult :=
  let _warmupGet := (warmupClient, urlToTest)
  let _measuredGet := (measuredRequestClient, urlToTest)
  let requestTime : String := toString (elapsedNanos / 1000)
  let httpOK : Bool :=
    match outcome with
    | HttpOutcome.transportError _ => false
    | HttpOutcome.response statusCode => statusCode == 200
  { ServerID := tomcat.ServerID, ServerStatus := httpOK, DataType := "time",
    ServerResponse := requestTime }

/-- waitForDomains receive loop, jmx-cron.go lines 420 to 432, over the
finite stream of messages that will arrive on the channel. The Go loop
body receives once unconditionally, appends, increments, and only then
compares the count against instanceCount. Running out of messages while
another receive is wanted models the program blocking forever. -/
def waitForDomainsAux (acc : List TomcatCheckResult) (returnedCount : Nat)
    (channel : List TomcatCheckResult) (instanceCount : Nat) :
    Option (List TomcatCheckResult) :=
  match channel with
  | [] => none
  | msg :: rest =>
    let acc2 := acc ++ [msg]
    let returnedCount2 := returnedCount + 1
    if returnedCount2 ≥ instanceCount then some acc2
    else waitForDomainsAux acc2 returnedCount2 rest instanceCount

/-- waitForDomains, jmx-cron.go lines 420 to 432. -/
def waitForDomains (channel : List TomcatCheckResult) (instanceCount : Nat) :
    Option (List TomcatCheckResult) :=
  waitForDomainsAux [] 0 channel instanceCount

/-- heapRequest, jmx-cron.go lines 438 to 446. The target url is the
hardcoded literal from the source, not the jmxURL parameter. -/
def heapRequest : JolokiaRequest :=
  { ReqType := "READ", Mbean := "java.lang:type=Memory",
    Attribute := "HeapMemoryUsage", Path := "used",
    Target := { url := "service:jmx:rmi:///jndi/rmi://10.4.100.215:51889/jmxrmi" } }

/-- threadRequest, jmx-cron.go lines 448 to 455, hardcoded target url,
Path left at its zero value. -/
def threadRequest : JolokiaRequest :=
  { ReqType := "READ", Mbean := "java.lang:type=Threading",
    Attribute := "ThreadCount", Path := "",
    Target := { url := "service:jmx:rmi:///jndi/rmi://10.4.100.215:51889/jmxrmi" } }

/-- cpuRequest, jmx-cron.go lines 457 to 464, hardcoded target url. -/
def cpuRequest : JolokiaRequest :=
  { ReqType := "READ", Mbean := "java.lang:type=OperatingSystem",
    Attribute := "ProcessCpuTime", Path := "",
    Target := { url := "service:jmx:rmi:///jndi/rmi://10.4.100.215:51889/jmxrmi" } }

/-- sakaiSessionRequest, jmx-cron.go lines 466 to 473: the only request
whose target url is built from the jmxURL argument. -/
def sakaiSessionRequest (jmxURL : String) : JolokiaRequest :=
  { ReqType := "READ", Mbean := "org.sakaiproject:name=Sessions",
    Attribute := "Active15Min", Path := "",
    Target := { url := "service:jmx:rmi:///jndi/rmi://" ++ jmxURL ++ "/jmxrmi" } }

/-- requestArray, jmx-cron.go lines 475 to 479: the four element batch. -/
def requestArray (jmxURL : String) : List JolokiaRequest :=
  [heapRequest, threadRequest, cpuRequest, sakaiSessionRequest jmxURL]

/-- getJmxAttributes, jmx-cron.go lines 434 to 517, abstracted over the
outcome of the POST to the Jolokia proxy. On transport or decode failure
it returns the error; on success it logs each entry and returns the raw
decoded array unchanged. It constructs no TomcatCheckResult values and
performs no matching of entries back to the four requests. -/
def getJmxAttributes (jmxURL : String) (outcome : JolokiaOutcome) :
    Except String JolokiaRequestResponse :=
  let _requests := requestArray jmxURL
  match outcome with
  | JolokiaOutcome.transportError msg => Except.error msg
  | JolokiaOutcome.decodeError msg => Except.error msg
  | JolokiaOutcome.decoded respJ => Except.ok respJ

/-- main, jmx-cron.go lines 322 to 350, end to end: directory lookup,
one getResponseTime goroutine per instance each sending one message,
waitForDomains over len(instances), one getJmxAttributes call per
instance whose return value is discarded exactly as at line 344, and
finally the collected mapping handed to updateAdminPortal. The channel
message stream is taken in dispatch order; the claims settled below do
not depend on arrival order. -/
def mainSweep (statusCode : Nat) (body : String)
    (decode : String → Option (List TomcatInstance))
    (outcome : TomcatInstance → HttpOutcome) (elapsed : TomcatInstance → Nat)
    (jolokia : TomcatInstance → JolokiaOutcome) : SweepOutcome :=
  match getInstancesFromPortal statusCode body decode with
  | DirectoryResult.fatalExit _ => SweepOutcome.fatalDirectory
  | DirectoryResult.instances instances =>
    let messages := instances.map (fun t =>
      getResponseTime t (buildUrlToTest t) (outcome t) (elapsed t))
    match waitForDomains messages instances.length with
    | none => SweepOutcome.blocked
    | some tomcatCheckMapping =>
      let _metricCalls := instances.map (fun t =>
        getJmxAttributes (t.ServerIP ++ ":" ++ t.JmxPort) (jolokia t))
      SweepOutcome.report tomcatCheckMapping

/-- A concrete instance whose project name contains sakai. -/
def instSakai : TomcatInstance :=
  { ServerID := "server-1", JvmRoute := "route1", ServerIP := "10.0.0.7",
    HTTPPort := "8080", JmxPort := "12345", ProjectID := "p1",
    ProjectName := "sakai-prod" }

/-- A concrete instance whose project name does not contain sakai. -/
def instPlain : TomcatInstance :=
  { ServerID := "server-2", JvmRoute := "route2", ServerIP := "10.0.0.8",
    HTTPPort := "8081", JmxPort := "12346", ProjectID := "p2",
    ProjectName := "moodle" }

/-- A portal decode function returning the single instance instSakai. -/
def decodeOne : String → Option (List TomcatInstance) := fun _ => some [instSakai]

/-- Sample decoded batch entry answering the heap request. -/
def sampleHeapEntry : JolokiaResponseEntry :=
  { Timestamp := 1700000000, Status := 200,
    Request := { Mbean := "java.lang:type=Memory", Path := "used",
                 Target := { url := "service:jmx:rmi:///jndi/rmi://10.4.100.215:51889/jmxrmi" },
                 Attribute := "HeapMemoryUsage", ReqType := "READ" },
    Value := 123456789 }

/-- Sample decoded batch entry answering the thread request. -/
def sampleThreadEntry : JolokiaResponseEntry :=
  { Timestamp := 1700000000, Status := 200,
    Request := { Mbean := "java.lang:type=Threading", Path := "",
                 Target := { url := "service:jmx:rmi:///jndi/rmi://10.4.100.215:51889/jmxrmi" },
                 Attribute := "ThreadCount", ReqType := "READ" },
    Value := 250 }

/-- Sample decoded batch entry answering the cpu request. -/
def sampleCpuEntry : JolokiaResponseEntry :=
  { Timestamp := 1700000000, Status := 200,
    Request := { Mbean := "java.lang:type=OperatingSystem", Path := "",
                 Target := { url := "service:jmx:rmi:///jndi/rmi://10.4.100.215:51889/jmxrmi" },
                 Attribute := "ProcessCpuTime", ReqType := "READ" },
    Value := 99999 }

/-- C1: the claim says the merged aggregate handed to updateAdminPortal
contains exactly one CheckResult for every dispatched pair of instance and
check kind, reachability plus the four metric kinds. Evaluating the whole
sweep on one instance with every remote call succeeding shows the report
holds exactly one entry, the reachability entry tagged time; the
getJmxAttributes results are discarded and no metric kind entry exists. -/
theorem c1_report_lacks_metric_kinds :
    mainSweep 200 "0123456" decodeOne (fun _ => HttpOutcome.response 200)
      (fun _ => 5000) (fun _ => JolokiaOutcome.decoded [sampleHeapEntry]) =
      SweepOutcome.report
        [{ ServerID := "server-1", ServerStatus := true, DataType := "time",
           ServerResponse := "5" }] ∧
    ∀ r ∈ [({ ServerID := "server-1", ServerStatus := true, DataType := "time",
              ServerResponse := "5" } : TomcatCheckResult)], r.DataType = "time" := by
  refine ⟨rfl, ?_⟩
  intro r hr
  simp only [List.mem_singleton] at hr
  rw [hr]

/-- C2: the claim says a decoded batch response with fewer matched entries
than the four requests sent yields one explicit failure CheckResult per
missing kind. Evaluating getJmxAttributes on a three entry response, with
the sessions entry missing, shows the function returns the raw three entry
array unchanged; its return type holds no CheckResult, so no failure entry
for the missing kind is ever produced. -/
theorem c2_short_batch_silently_returned :
    (requestArray "10.0.0.7:12345").length = 4 ∧
    getJmxAttributes "10.0.0.7:12345"
      (JolokiaOutcome.decoded [sampleHeapEntry, sampleThreadEntry, sampleCpuEntry]) =
      Except.ok [sampleHeapEntry, sampleThreadEntry, sampleCpuEntry] :=
  ⟨rfl, rfl⟩

/-- C3: the claim says waitForDomains called with instanceCount zero
returns an empty result list rather than blocking. The loop receives once
before any count check, so with zero dispatched producers the channel
stream is empty and the receive blocks forever, modelled as none; the
whole sweep on an empty instance list is therefore blocked, not a no-op
success. -/
theorem c3_zero_instances_blocks :
    waitForDomains [] 0 = none ∧
    mainSweep 200 "" (fun _ => none) (fun _ => HttpOutcome.transportError "unreachable")
      (fun _ => 0) (fun _ => JolokiaOutcome.transportError "unreachable") =
      SweepOutcome.blocked :=
  ⟨rfl, rfl⟩

/-- C4: the claim says each of the four MetricRequests targets the
management address of the instance, ServerIP colon JmxPort. Evaluating the
request batch for the management address 10.0.0.7:12345 shows the heap,
thread and cpu requests target the hardcoded address 10.4.100.215:51889
regardless of the instance, and only the sessions request uses the
instance address. -/
theorem c4_hardcoded_targets :
    heapRequest.Target.url = "service:jmx:rmi:///jndi/rmi://10.4.100.215:51889/jmxrmi" ∧
    threadRequest.Target.url = "service:jmx:rmi:///jndi/rmi://10.4.100.215:51889/jmxrmi" ∧
    cpuRequest.Target.url = "service:jmx:rmi:///jndi/rmi://10.4.100.215:51889/jmxrmi" ∧
    (sakaiSessionRequest "10.0.0.7:12345").Target.url =
      "service:jmx:rmi:///jndi/rmi://10.0.0.7:12345/jmxrmi" ∧
    heapRequest.Target.url ≠ "service:jmx:rmi:///jndi/rmi://10.0.0.7:12345/jmxrmi" := by
  refine ⟨rfl, rfl, rfl, rfl, ?_⟩
  decide

/-- C5 counterexample: the claim says that on a transport failure the
payload of the CheckResult holds a diagnostic string. For a GET that fails
with the diagnostic connection refused after 123456 nanoseconds, the
payload is the elapsed time string 123, not the diagnostic. -/
theorem c5_payload_not_diagnostic :
    (getResponseTime instSakai "http://10.0.0.7:8080/portal/xlogin"
        (HttpOutcome.transportError "connection refused") 123456).ServerResponse = "123" ∧
    ("123" : String) ≠ "connection refused" := by
  refine ⟨rfl, ?_⟩
  decide

/-- C5 amended: on any transport failure the health probe returns a normal
CheckResult value with success false, kind tag time, and payload the
formatted elapsed time; the diagnostic is only logged. The probe is a
total function into TomcatCheckResult, so no error ever reaches the
caller. -/
theorem c5_failure_payload_is_elapsed_time (tomcat : TomcatInstance)
    (urlToTest diagnostic : String) (elapsedNanos : Nat) :
    getResponseTime tomcat urlToTest (HttpOutcome.transportError diagnostic) elapsedNanos =
      { ServerID := tomcat.ServerID, ServerStatus := false, DataType := "time",
        ServerResponse := toString (elapsedNanos / 1000) } :=
  rfl

/-- C5 amended, at a concrete input: a DNS failure after 9999 nanoseconds
yields the failure CheckResult whose payload is the elapsed time string. -/
theorem c5_failure_payload_is_elapsed_time_witness :
    getResponseTime instPlain "http://10.0.0.8:8081/"
        (HttpOutcome.transportError "dns failure") 9999 =
      { ServerID := instPlain.ServerID, ServerStatus := false, DataType := "time",
        ServerResponse := toString (9999 / 1000) } :=
  c5_failure_payload_is_elapsed_time instPlain "http://10.0.0.8:8081/" "dns failure" 9999

/-- C6 counterexample: the claim says success is true whenever the request
completed with a status in the 2xx range. A completed request with status
204, which lies in the 2xx range, yields success false. -/
theorem c6_status_204_not_success :
    (200 ≤ 204 ∧ 204 < 300) ∧
    (getResponseTime instSakai "http://10.0.0.7:8080/portal/xlogin"
        (HttpOutcome.response 204) 123456).ServerStatus = false :=
  ⟨by decide, rfl⟩

/-- C6 amended: the success flag of the health probe CheckResult is true
exactly when the request completed with status code exactly 200, and the
payload is always the elapsed latency in microseconds formatted in base
10. -/
theorem c6_success_iff_status_200 (tomcat : TomcatInstance) (urlToTest : String)
    (outcome : HttpOutcome) (elapsedNanos : Nat) :
    ((getResponseTime tomcat urlToTest outcome elapsedNanos).ServerStatus = true ↔
      outcome = HttpOutcome.response 200) ∧
    (getResponseTime tomcat urlToTest outcome elapsedNanos).ServerResponse =
      toString (elapsedNanos / 1000) := by
  refine ⟨?_, rfl⟩
  cases outcome with
  | transportError d => simp [getResponseTime]
  | response s => simp [getResponseTime]

/-- C6 amended, at a concrete input: a completed request with status 200
and 2000 elapsed nanoseconds satisfies both conjuncts. -/
theorem c6_success_iff_status_200_witness :
    (((getResponseTime instSakai "http://10.0.0.7:8080/portal/xlogin"
        (HttpOutcome.response 200) 2000).ServerStatus = true ↔
      HttpOutcome.response 200 = HttpOutcome.response 200)) ∧
    (getResponseTime instSakai "http://10.0.0.7:8080/portal/xlogin"
        (HttpOutcome.response 200) 2000).ServerResponse = toString (2000 / 1000) :=
  c6_success_iff_status_200 instSakai "http://10.0.0.7:8080/portal/xlogin"
    (HttpOutcome.response 200) 2000

/-- C7: whenever the directory lookup returns a status outside the 2xx
range, getInstancesFromPortal exits fatally with code 1 and the whole
sweep ends as fatalDirectory before any probe is dispatched. -/
theorem c7_non2xx_fatal (statusCode : Nat) (body : String)
    (decode : String → Option (List TomcatInstance))
    (outcome : TomcatInstance → HttpOutcome) (elapsed : TomcatInstance → Nat)
    (jolokia : TomcatInstance → JolokiaOutcome)
    (h : statusCode < 200 ∨ 300 ≤ statusCode) :
    getInstancesFromPortal statusCode body decode = DirectoryResult.fatalExit 1 ∧
    mainSweep statusCode body decode outcome elapsed jolokia =
      SweepOutcome.fatalDirectory := by
  have hne : ¬ statusCode = 200 := by omega
  constructor
  · simp [getInstancesFromPortal, hne]
  · simp [mainSweep, getInstancesFromPortal, hne]

/-- C7 at a concrete input: a 404 from the directory is fatal. -/
theorem c7_non2xx_fatal_witness :
    getInstancesFromPortal 404 "" (fun _ => none) = DirectoryResult.fatalExit 1 ∧
    mainSweep 404 "" (fun _ => none) (fun _ => HttpOutcome.response 200) (fun _ => 0)
      (fun _ => JolokiaOutcome.decoded []) = SweepOutcome.fatalDirectory :=
  c7_non2xx_fatal 404 "" (fun _ => none) (fun _ => HttpOutcome.response 200)
    (fun _ => 0) (fun _ => JolokiaOutcome.decoded []) (Or.inr (by decide))

/-- C8 counterexample: the claim says the measured GET is issued with a
bounded, configurable timeout. The measured request at line 397 goes
through http.Get, hence http.DefaultClient, whose Timeout is the zero
value: no bounded timeout exists for it at all. -/
theorem c8_measured_request_unbounded :
    measuredRequestClient.timeoutNanos = none ∧
    ¬ ∃ t : Nat, measuredRequestClient.timeoutNanos = some t := by
  refine ⟨rfl, ?_⟩
  rintro ⟨t, h⟩
  simp [measuredRequestClient, defaultHttpClient] at h

/-- C8 amended: only the unmeasured warmup GET uses a timeout, hardcoded
to 1 second and not configurable; the measured GET uses the default
client, which has no timeout, so a measured request can wait unboundedly. -/
theorem c8_warmup_timeout_only :
    warmupClient.timeoutNanos = some 1000000000 ∧
    measuredRequestClient = defaultHttpClient ∧
    defaultHttpClient.timeoutNanos = none :=
  ⟨rfl, rfl, rfl⟩

/-- C9: when the project name of an instance contains sakai the probed URL
is the root address with the suffix portal/xlogin appended, and otherwise
it is the root address ending in a bare slash. -/
theorem c9_sakai_url (t : TomcatInstance) :
    (strContains t.ProjectName "sakai" = true →
      buildUrlToTest t = "http://" ++ t.ServerIP ++ ":" ++ t.HTTPPort ++ "/" ++ "portal/xlogin") ∧
    (strContains t.ProjectName "sakai" = false →
      buildUrlToTest t = "http://" ++ t.ServerIP ++ ":" ++ t.HTTPPort ++ "/") := by
  constructor <;> intro h <;> simp [buildUrlToTest, h]

/-- C9 at concrete inputs: a sakai instance probes the xlogin path and a
non sakai instance probes the root path. -/
theorem c9_sakai_url_witness :
    buildUrlToTest instSakai = "http://10.0.0.7:8080/portal/xlogin" ∧
    buildUrlToTest instPlain = "http://10.0.0.8:8081/" := by
  constructor
  · rw [(c9_sakai_url instSakai).1 (by decide)]
    decide
  · rw [(c9_sakai_url instPlain).2 (by decide)]
    decide

/-- C10: when the directory responds with status 200, a body of at most 5
bytes is never decoded and yields the empty instance list, and a longer
body whose decode fails also yields the empty instance list; neither case
surfaces an error, the sweep proceeds as if no instances were registered. -/
theorem c10_parse_problems_silent (body : String)
    (decode : String → Option (List TomcatInstance)) :
    (body.utf8ByteSize ≤ 5 →
      getInstancesFromPortal 200 body decode = DirectoryResult.instances []) ∧
    (decode body = none →
      getInstancesFromPortal 200 body decode = DirectoryResult.instances []) := by
  constructor
  · intro h
    have h2 : ¬ body.utf8ByteSize > 5 := by omega
    simp [getInstancesFromPortal, h2]
  · intro h
    by_cases h2 : body.utf8ByteSize > 5
    · simp [getInstancesFromPortal, h2, h]
    · simp [getInstancesFromPortal, h2]

/-- C10 at concrete inputs: a 3 byte body and a longer body that fails to
decode both yield the empty instance list under status 200. -/
theorem c10_parse_problems_silent_witness :
    getInstancesFromPortal 200 "bad" (fun _ => none) = DirectoryResult.instances [] ∧
    getInstancesFromPortal 200 "not-valid-json" (fun _ => none) =
      DirectoryResult.instances [] :=
  ⟨(c10_parse_problems_silent "bad" (fun _ => none)).1 (by decide),
   (c10_parse_problems_silent "not-valid-json" (fun _ => none)).2 rfl⟩

end JmxCron
